import Mathlib

/-!
Verification of the TMDB data-pipeline scripts.

This file shallowly embeds the two Python modules of the repository,
`tmdb_weekly_trend.py` and `tmdb_historical.py`, and proves the spec's
testable properties about them.

Modelling conventions:
- JSON result records are structures of `Option` fields (a missing dict key
  is `none`); Python truthiness of `a or b` on optional strings is `pyOr`.
- Python dicts (the genre map, the cast-count accumulator) are embedded as
  lookup functions built by `foldl` insertion, respectively as
  insertion-ordered association lists, matching Python's insertion-ordered
  dict semantics.
- The network is an oracle: a function from page number (resp. attempt
  number) to the fetched page (resp. HTTP response).  Side observation
  functions record the request trace and the sleep trace of the loops.
- `pandas.DataFrame.sort_values(by, ascending=False, kind="mergesort")`
  sorts with a stable mergesort; pandas' `nargsort` reverses the array
  before and after a stable ascending argsort, so the descending sort is
  also stable, and rows whose key is missing (NaN) are placed at the end in
  their original order (`na_position="last"`).  It is embedded as
  `List.mergeSort` with the comparator `popLe` on `Option ℚ`.
- numeric JSON fields are embedded as `ℚ` (the scripts never compute with
  them, they only compare for sorting).
-/

namespace TMDB

/-- A raw API result record: a loosely-typed JSON object.  Fields the
scripts read via `r.get(...)` are `Option`s; a key absent from the dict is
`none`. -/
structure ResultRecord where
  id : Option Int
  media_type : Option String
  title : Option String
  name : Option String
  release_date : Option String
  first_air_date : Option String
  genre_ids : Option (List Int)
  popularity : Option ℚ
  vote_average : Option ℚ
  vote_count : Option Int
  original_language : Option String
  overview : Option String
  poster_path : Option String
  backdrop_path : Option String
deriving DecidableEq

/-- Python `a or b` on two optional strings: `None` and `""` are falsy. -/
def pyOr (a b : Option String) : Option String :=
  match a with
  | some s => if s = "" then b else some s
  | none => b

/-- Python `f"...{x}"` interpolation of an optional integer: `None` prints
as the string `None`. -/
def pyStrId (a : Option Int) : String :=
  match a with
  | some n => toString n
  | none => "None"

/-! ## The HTTP fetch helper (`fetch_json`, identical in both scripts) -/

/-- An HTTP response as the scripts observe it: a status code and a body. -/
structure HttpResponse where
  status : Nat
  body : String
deriving DecidableEq

/-- The retry loop of `fetch_json`, stepping through attempts `0, 1, 2`
(`fuel` is the number of attempts left, `last` is Python's `last_resp`).
On a 200 response the parsed body (modelled as the response itself) is
returned; after the attempts are exhausted a `RuntimeError` carrying the
last status and the body truncated to its first 300 characters
(`last_resp.text[:300]`, embedded as a character-list slice) is raised. -/
def fetchFrom (responses : Nat → HttpResponse) :
    Nat → Nat → Option HttpResponse → Except (Nat × String) HttpResponse
  | _, 0, last =>
    match last with
    | some resp => .error (resp.status, String.mk (resp.body.data.take 300))
    | none => .error (0, "")
  | attempt, fuel + 1, _ =>
    let resp := responses attempt
    if resp.status = 200 then .ok resp
    else fetchFrom responses (attempt + 1) fuel (some resp)

/-- Model of `fetch_json`: up to 3 GET attempts against the attempt oracle
`responses`. -/
def fetch_json (responses : Nat → HttpResponse) : Except (Nat × String) HttpResponse :=
  fetchFrom responses 0 3 none

/-- Trace of the attempt indices at which `fetch_json` actually issues a
GET request (each loop iteration requests once, and the loop ends on the
first 200). -/
def attemptsFrom (responses : Nat → HttpResponse) : Nat → Nat → List Nat
  | _, 0 => []
  | attempt, fuel + 1 =>
    attempt :: (if (responses attempt).status = 200 then [] else attemptsFrom responses (attempt + 1) fuel)

/-- The GET requests issued by one `fetch_json` call. -/
def fetch_attempts (responses : Nat → HttpResponse) : List Nat :=
  attemptsFrom responses 0 3

/-- Trace of the `time.sleep(1 + attempt)` durations performed by the
retry loop: one sleep after every non-200 response. -/
def sleepsFrom (responses : Nat → HttpResponse) : Nat → Nat → List Nat
  | _, 0 => []
  | attempt, fuel + 1 =>
    if (responses attempt).status = 200 then []
    else (1 + attempt) :: sleepsFrom responses (attempt + 1) fuel

/-- The sleeps performed by one `fetch_json` call, in seconds. -/
def fetch_sleeps (responses : Nat → HttpResponse) : List Nat :=
  sleepsFrom responses 0 3

/-! ## The genre map (`get_genre_map`, identical in both scripts) -/

/-- One Python dict assignment `m[key] = val`, on dicts embedded as lookup
functions. -/
def dictInsert (m : Int → Option String) (key : Int) (val : String) : Int → Option String :=
  fun i => if i = key then some val else m i

/-- The dict comprehension over a genre list of `(id, name)` pairs. -/
def dictOfPairs (pairs : List (Int × String)) : Int → Option String :=
  pairs.foldl (fun m p => dictInsert m p.1 p.2) (fun _ => none)

/-- Model of `get_genre_map`: builds the movie-genre dict, then `update`s it with
the TV-genre dict, so TV entries overwrite movie entries on a shared id. -/
def get_genre_map (movieGenres tvGenres : List (Int × String)) : Int → Option String :=
  tvGenres.foldl (fun m p => dictInsert m p.1 p.2) (dictOfPairs movieGenres)

theorem foldl_dictInsert_of_not_mem (m : Int → Option String)
    (pairs : List (Int × String)) (i : Int) (h : i ∉ pairs.map Prod.fst) :
    pairs.foldl (fun m p => dictInsert m p.1 p.2) m i = m i := by
  induction pairs generalizing m with
  | nil => rfl
  | cons p rest ih =>
    simp only [List.map_cons, List.mem_cons, not_or] at h
    simp only [List.foldl_cons]
    rw [ih _ h.2]
    simp [dictInsert, h.1]

theorem foldl_dictInsert_of_mem (m : Int → Option String)
    (pairs : List (Int × String)) (i : Int) (n : String)
    (hnd : (pairs.map Prod.fst).Nodup) (h : (i, n) ∈ pairs) :
    pairs.foldl (fun m p => dictInsert m p.1 p.2) m i = some n := by
  induction pairs generalizing m with
  | nil => simp at h
  | cons p rest ih =>
    simp only [List.map_cons, List.nodup_cons] at hnd
    rcases List.mem_cons.mp h with hhead | htail
    · subst hhead
      simp only [List.foldl_cons]
      rw [foldl_dictInsert_of_not_mem _ _ _ hnd.1]
      simp [dictInsert]
    · simp only [List.foldl_cons]
      exact ih _ hnd.2 htail

/-! ## Generic paginated-fetch loop

Both scripts run the same loop: `for page in range(1, pages + 1)`, fetch
the page, `break` on an empty result list, otherwise extend the output.
`fetchPagesFrom g page fuel` is the list accumulated from `page` on with
`fuel` iterations left; `fetchReqsFrom` is the trace of page numbers
actually requested by that loop. -/

def fetchPagesFrom (g : Nat → List α) : Nat → Nat → List α
  | _, 0 => []
  | page, fuel + 1 =>
    let page_results := g page
    if page_results.isEmpty then []
    else page_results ++ fetchPagesFrom g (page + 1) fuel

def fetchReqsFrom (g : Nat → List α) : Nat → Nat → List Nat
  | _, 0 => []
  | page, fuel + 1 =>
    page :: (if (g page).isEmpty then [] else fetchReqsFrom g (page + 1) fuel)

theorem fetchReqsFrom_length_le (g : Nat → List α) (page fuel : Nat) :
    (fetchReqsFrom g page fuel).length ≤ fuel := by
  induction fuel generalizing page with
  | zero => simp [fetchReqsFrom]
  | succ n ih =>
    simp only [fetchReqsFrom]
    by_cases h : (g page).isEmpty = true
    · simp [h]
    · simp only [h, Bool.false_eq_true, if_false, List.length_cons]
      exact Nat.succ_le_succ (ih (page + 1))

theorem fetchReqsFrom_eq_range' (g : Nat → List α) (page fuel : Nat) :
    fetchReqsFrom g page fuel = List.range' page (fetchReqsFrom g page fuel).length := by
  induction fuel generalizing page with
  | zero => simp [fetchReqsFrom]
  | succ n ih =>
    simp only [fetchReqsFrom]
    by_cases h : (g page).isEmpty = true
    · simp [h]
    · simp only [h, Bool.false_eq_true, if_false, List.length_cons, List.range'_succ]
      rw [← ih (page + 1)]

theorem fetchPagesFrom_eq_flatten (g : Nat → List α) (page fuel : Nat) :
    fetchPagesFrom g page fuel = ((fetchReqsFrom g page fuel).map g).flatten := by
  induction fuel generalizing page with
  | zero => simp [fetchPagesFrom, fetchReqsFrom]
  | succ n ih =>
    simp only [fetchPagesFrom, fetchReqsFrom]
    by_cases h : (g page).isEmpty = true
    · simp [h, List.isEmpty_iff.mp h]
    · simp only [h, Bool.false_eq_true, if_false, List.map_cons, List.flatten_cons]
      rw [ih (page + 1)]

theorem flatten_filter_not_isEmpty (ls : List (List α)) :
    (ls.filter (fun l => !l.isEmpty)).flatten = ls.flatten := by
  induction ls with
  | nil => rfl
  | cons l rest ih =>
    by_cases h : l.isEmpty
    · simp [List.filter_cons, h, List.isEmpty_iff.mp h, ih]
    · simp [List.filter_cons, h, ih]

/-- All requested pages, except possibly the last one, returned a
non-empty result list (the loop breaks at the first empty page). -/
theorem fetchReqsFrom_dropLast_nonempty (g : Nat → List α) (page fuel : Nat) :
    (((fetchReqsFrom g page fuel).map g).dropLast).all (fun l => !l.isEmpty) = true := by
  induction fuel generalizing page with
  | zero => simp [fetchReqsFrom]
  | succ n ih =>
    simp only [fetchReqsFrom]
    by_cases h : (g page).isEmpty
    · simp [h]
    · simp only [h, Bool.false_eq_true, if_false, List.map_cons]
      rcases hrest : fetchReqsFrom g (page + 1) n with _ | ⟨q, qs⟩
      · simp
      · have hall := ih (page + 1)
        rw [hrest] at hall
        rw [List.dropLast_cons_of_ne_nil (l := List.map g (q :: qs)) (by simp),
          List.all_cons]
        have hf : (g page).isEmpty = false := Bool.eq_false_iff.mpr h
        rw [hf, hall]
        rfl

/-- If the loop stopped before exhausting its page budget, it is because
the last page it requested came back empty. -/
theorem fetchReqsFrom_early_stop (g : Nat → List α) (page fuel : Nat)
    (h : (fetchReqsFrom g page fuel).length < fuel) :
    0 < (fetchReqsFrom g page fuel).length ∧
      g (page + (fetchReqsFrom g page fuel).length - 1) = [] := by
  induction fuel generalizing page with
  | zero => simp at h
  | succ n ih =>
    simp only [fetchReqsFrom] at h ⊢
    by_cases he : (g page).isEmpty = true
    · simp [he, List.isEmpty_iff.mp he]
    · simp only [he, Bool.false_eq_true, if_false, List.length_cons] at h ⊢
      have hlt : (fetchReqsFrom g (page + 1) n).length < n := Nat.lt_of_succ_lt_succ h
      obtain ⟨hpos, hempty⟩ := ih (page + 1) hlt
      refine ⟨Nat.succ_pos _, ?_⟩
      have harg : page + ((fetchReqsFrom g (page + 1) n).length + 1) - 1 =
          page + 1 + (fetchReqsFrom g (page + 1) n).length - 1 := by omega
      rw [harg]
      exact hempty

/-! ## The popularity sort

`df.sort_values(by=["popularity"], ascending=False, kind="mergesort")` is a
stable descending sort on the `popularity` column with missing values
(`NaN`, here `none`) placed last (`na_position="last"`). -/

/-- The row comparator realised by pandas' stable descending sort on the
popularity column: larger popularity first, missing popularity last. -/
def popLe (a b : Option ℚ) : Bool :=
  match a, b with
  | some x, some y => decide (y ≤ x)
  | some _, none => true
  | none, some _ => false
  | none, none => true

theorem popLe_trans (a b c : Option ℚ) (hab : popLe a b = true) (hbc : popLe b c = true) :
    popLe a c = true := by
  rcases a with _ | x <;> rcases b with _ | y <;> rcases c with _ | z <;>
    simp_all [popLe]
  exact le_trans hbc hab

theorem popLe_total (a b : Option ℚ) : (popLe a b || popLe b a) = true := by
  rcases a with _ | x <;> rcases b with _ | y <;> simp_all [popLe]
  exact le_total y x

/-- Stability of `List.mergeSort`, phrased through equivalence classes: the
sorted list agrees with the input on every subset `P` of pairwise-tied
elements, i.e. tied elements keep their original relative order. -/
theorem filter_mergeSort_of_class (le : α → α → Bool)
    (htrans : ∀ a b c : α, le a b = true → le b c = true → le a c = true)
    (htot : ∀ a b : α, (le a b || le b a) = true)
    (P : α → Bool) (hP : ∀ a b : α, P a = true → P b = true → le a b = true)
    (l : List α) :
    (l.mergeSort le).filter P = l.filter P := by
  have hmemP : ∀ a ∈ l.filter P, P a = true := fun a ha => List.of_mem_filter ha
  have hpw : (l.filter P).Pairwise (fun a b => le a b = true) :=
    List.pairwise_of_forall_mem_list
      (fun a ha b hb => hP a b (hmemP a ha) (hmemP b hb))
  have hsub : (l.filter P).Sublist (l.mergeSort le) :=
    List.sublist_mergeSort htrans htot hpw (List.filter_sublist l)
  have hself : (l.filter P).filter P = l.filter P :=
    List.filter_eq_self.mpr hmemP
  have hsubf : (l.filter P).Sublist ((l.mergeSort le).filter P) := by
    have := hsub.filter P
    rwa [hself] at this
  have hperm : ((l.mergeSort le).filter P).Perm (l.filter P) :=
    (List.mergeSort_perm l le).filter P
  exact (hsubf.eq_of_length hperm.length_eq.symm).symm

/-! ## `tmdb_weekly_trend.py` -/

namespace Weekly

/-- The tidy row built by `normalize_trending` (one dict appended to
`rows` per input record). -/
structure NormalizedRow where
  id : Option Int
  media_type : Option String
  title : Option String
  date : Option String
  popularity : Option ℚ
  vote_average : Option ℚ
  vote_count : Option Int
  original_language : Option String
  genres : String
  overview : Option String
  poster_path : Option String
  backdrop_path : Option String
  tmdb_url : String
deriving DecidableEq

/-- The body of the `for r in results` loop of `normalize_trending`: the
dict appended to `rows` for one raw record. -/
def buildRow (genre_map : Int → Option String) (r : ResultRecord) : NormalizedRow :=
  let media_type := r.media_type
  let title := pyOr r.title r.name
  let date := pyOr r.release_date r.first_air_date
  let genre_ids := r.genre_ids.getD []
  let genres := genre_ids.map (fun gid => (genre_map gid).getD (toString gid))
  let tmdb_url :=
    if media_type = some "movie" then "https://www.themoviedb.org/movie/" ++ pyStrId r.id
    else if media_type = some "tv" then "https://www.themoviedb.org/tv/" ++ pyStrId r.id
    else ""
  { id := r.id
    media_type := media_type
    title := title
    date := date
    popularity := r.popularity
    vote_average := r.vote_average
    vote_count := r.vote_count
    original_language := r.original_language
    genres := String.intercalate "; " genres
    overview := r.overview
    poster_path := r.poster_path
    backdrop_path := r.backdrop_path
    tmdb_url := tmdb_url }

/-- Model of `normalize_trending`: build one row per record, then (unless the frame
is empty) sort descending by popularity with a stable mergesort. -/
def normalize_trending (results : List ResultRecord) (genre_map : Int → Option String) :
    List NormalizedRow :=
  let df := results.map (buildRow genre_map)
  if df.isEmpty then df
  else df.mergeSort (fun a b => popLe a.popularity b.popularity)

/-- Model of `get_trending`: the paginated trending fetch, pages `1 .. pages`,
breaking at the first empty page.  The page oracle `f` stands for
`fetch_json("/trending/...", page=...).get("results", [])`; the returned
dict `{"results": all_results}` is modelled by its only field. -/
def get_trending (f : Nat → List ResultRecord) (pages : Nat) : List ResultRecord :=
  fetchPagesFrom f 1 pages

/-- The page numbers `get_trending` actually requests. -/
def get_trending_requests (f : Nat → List ResultRecord) (pages : Nat) : List Nat :=
  fetchReqsFrom f 1 pages

/-- The token list of `expand_by_genre` for one row:
`[x.strip() for x in str(genres).split(";") if x and x.strip()]`. -/
def genreTokens (s : String) : List String :=
  ((s.splitOn ";").filter (fun x => decide (x ≠ "") && decide (x.trim ≠ ""))).map
    (fun x => x.trim)

/-- A by-genre row: the copied source row plus the single `genre` field. -/
structure ExpandedRow where
  row : NormalizedRow
  genre : String
deriving DecidableEq

/-- Model of `expand_by_genre`: one output row per surviving genre token, or one
row with an empty `genre` if no token survives. -/
def expand_by_genre (df : List NormalizedRow) : List ExpandedRow :=
  df.flatMap (fun r =>
    let g_list := genreTokens r.genres
    if g_list.isEmpty then [{ row := r, genre := "" }]
    else g_list.map (fun g => { row := r, genre := g }))

/-- One `cast_counts[name] = cast_counts.get(name, 0) + 1` update on the
insertion-ordered dict (embedded as an association list: a new key is
appended, an existing key keeps its position). -/
def bumpCount : List (String × Nat) → String → List (String × Nat)
  | [], n => [(n, 1)]
  | (k, v) :: rest, n =>
    if k = n then (k, v + 1) :: rest else (k, v) :: bumpCount rest n

/-- The inner `for c in credits.get("cast", [])` loop of
`top_cast_from_sample`: falsy names (`None` or `""`) are skipped. -/
def addCastList (counts : List (String × Nat)) (cast : List (Option String)) :
    List (String × Nat) :=
  cast.foldl
    (fun acc nm =>
      match nm with
      | none => acc
      | some n => if n = "" then acc else bumpCount acc n)
    counts

/-- The accumulation phase of `top_cast_from_sample` over
`df.head(sample_size)`; the per-title credits call is the oracle
`credits`.  The script then emits these pairs in dict order and sorts them
descending by count with `sort_values("count", ascending=False)` — note:
with the *default* `kind="quicksort"`, not a stable kind. -/
def top_cast_counts (credits : NormalizedRow → List (Option String))
    (df : List NormalizedRow) (sample_size : Nat) : List (String × Nat) :=
  (df.take sample_size).foldl (fun acc row => addCastList acc (credits row)) []

/-- The history-append step of `main`: read the existing history table if
the file exists (`none` models a missing file), concatenate the new rows
onto it, and rewrite the whole table. -/
def history_merge (old : Option (List NormalizedRow)) (df : List NormalizedRow) :
    List NormalizedRow :=
  match old with
  | some existing => existing ++ df
  | none => df

end Weekly

/-! ## `tmdb_historical.py` -/

namespace Historical

/-- The tidy row built by `normalize_results` (the historical script keeps
fewer columns than the trending one). -/
structure NormalizedRow where
  id : Option Int
  media_type : Option String
  title : Option String
  date : Option String
  popularity : Option ℚ
  vote_average : Option ℚ
  vote_count : Option Int
  original_language : Option String
  genres : String
deriving DecidableEq

/-- The body of the `for r in results` loop of `normalize_results`. -/
def buildRow (genre_map : Int → Option String) (r : ResultRecord) : NormalizedRow :=
  let media_type := r.media_type
  let title := pyOr r.title r.name
  let date := pyOr r.release_date r.first_air_date
  let genre_ids := r.genre_ids.getD []
  let genres := genre_ids.map (fun gid => (genre_map gid).getD (toString gid))
  { id := r.id
    media_type := media_type
    title := title
    date := date
    popularity := r.popularity
    vote_average := r.vote_average
    vote_count := r.vote_count
    original_language := r.original_language
    genres := String.intercalate "; " genres }

/-- Model of `normalize_results`: one row per record, then (unless empty) the same
stable descending popularity sort as the trending script. -/
def normalize_results (results : List ResultRecord) (genre_map : Int → Option String) :
    List NormalizedRow :=
  let df := results.map (buildRow genre_map)
  if df.isEmpty then df
  else df.mergeSort (fun a b => popLe a.popularity b.popularity)

/-- The page loop of `discover_range`: fetch a page, break if empty,
otherwise stamp `r["media_type"] = media_type` on every raw record and
extend the output. -/
def discoverLoop (f : Nat → List ResultRecord) (media_type : String) :
    Nat → Nat → List ResultRecord
  | _, 0 => []
  | page, fuel + 1 =>
    let results := f page
    if results.isEmpty then []
    else
      results.map (fun r => { r with media_type := some media_type }) ++
        discoverLoop f media_type (page + 1) fuel

/-- Model of `discover_range`: dispatch on the media type (anything other than
`"movie"` or `"tv"` returns `[]` before any fetch), then run the page
loop from page 1.  The page oracle `f` stands for the single-page
`fetch_json(path, params)["results"]` call for this query; the date
arguments only shape the query parameters sent to it. -/
def discover_range (f : Nat → List ResultRecord) (media_type : String)
    (start_date end_date : String) (pages : Nat) : List ResultRecord :=
  if media_type = "movie" then discoverLoop f media_type 1 pages
  else if media_type = "tv" then discoverLoop f media_type 1 pages
  else []

/-- The page numbers `discover_range` actually requests: none at all
outside the `"movie"`/`"tv"` branches. -/
def discover_range_requests (f : Nat → List ResultRecord) (media_type : String)
    (pages : Nat) : List Nat :=
  if media_type = "movie" then fetchReqsFrom f 1 pages
  else if media_type = "tv" then fetchReqsFrom f 1 pages
  else []

/-- Same token split as the trending script (the two `expand_by_genre`
definitions are identical). -/
def genreTokens (s : String) : List String :=
  ((s.splitOn ";").filter (fun x => decide (x ≠ "") && decide (x.trim ≠ ""))).map
    (fun x => x.trim)

/-- A by-genre row of the historical script. -/
structure ExpandedRow where
  row : NormalizedRow
  genre : String
deriving DecidableEq

/-- Model of `expand_by_genre` of the historical script. -/
def expand_by_genre (df : List NormalizedRow) : List ExpandedRow :=
  df.flatMap (fun r =>
    let g_list := genreTokens r.genres
    if g_list.isEmpty then [{ row := r, genre := "" }]
    else g_list.map (fun g => { row := r, genre := g }))

/-- The stamping loop distributes over the generic page loop. -/
theorem discoverLoop_eq_fetchPagesFrom (f : Nat → List ResultRecord)
    (media_type : String) (page fuel : Nat) :
    discoverLoop f media_type page fuel =
      fetchPagesFrom (fun p => (f p).map (fun r => { r with media_type := some media_type }))
        page fuel := by
  induction fuel generalizing page with
  | zero => rfl
  | succ n ih =>
    simp only [discoverLoop, fetchPagesFrom]
    by_cases h : (f page).isEmpty = true
    · simp [h, List.isEmpty_iff.mp h]
    · have h2 : ((f page).map
          (fun r => { r with media_type := some media_type })).isEmpty = false := by
        rcases hf : f page with _ | ⟨a, as⟩
        · rw [hf] at h; simp at h
        · simp
      simp only [h, h2, Bool.false_eq_true, if_false]
      rw [ih (page + 1)]

end Historical

/-! ## Claims -/

/-- The popularity sort comparator sorts its output pairwise. -/
theorem popSort_sorted (pop : α → Option ℚ) (l : List α) :
    List.Pairwise (fun a b => popLe (pop a) (pop b) = true)
      (l.mergeSort (fun a b => popLe (pop a) (pop b))) := by
  apply List.sorted_mergeSort
  · intro a b c hab hbc
    exact popLe_trans _ _ _ hab hbc
  · intro a b
    exact popLe_total _ _

/-- The popularity sort keeps every class of tied rows in input order. -/
theorem filter_popSort_stable (pop : α → Option ℚ) (l : List α) (p : ℚ) :
    (l.mergeSort (fun a b => popLe (pop a) (pop b))).filter
        (fun a => decide (pop a = some p)) =
      l.filter (fun a => decide (pop a = some p)) := by
  apply filter_mergeSort_of_class
  · intro a b c hab hbc
    exact popLe_trans _ _ _ hab hbc
  · intro a b
    exact popLe_total _ _
  · intro a b ha hb
    have ha' := of_decide_eq_true ha
    have hb' := of_decide_eq_true hb
    rw [ha', hb']
    simp [popLe]

/-- C1: normalization produces exactly one output row per input record —
`len(normalize(results, genre_map)) == len(results)` for every result
list and genre map, in both scripts.  The normalizers are total functions
(missing fields become `none`/empty values), so no record is dropped and
no error is raised. -/
theorem claim1_normalize_preserves_row_count
    (results : List ResultRecord) (genre_map : Int → Option String) :
    (Weekly.normalize_trending results genre_map).length = results.length ∧
    (Historical.normalize_results results genre_map).length = results.length := by
  constructor
  · unfold Weekly.normalize_trending
    by_cases h : (results.map (Weekly.buildRow genre_map)).isEmpty = true
    · simp [h]
    · simp [h, List.length_mergeSort]
  · unfold Historical.normalize_results
    by_cases h : (results.map (Historical.buildRow genre_map)).isEmpty = true
    · simp [h]
    · simp [h, List.length_mergeSort]

/-- C6: the genre map merges the movie list and the TV list with TV
entries winning on id collision.  First part: an id/name pair listed in
the TV genres (with duplicate-free TV ids) is reported with the TV name,
whatever the movie list says.  Second part: an id not listed in the TV
genres keeps its movie name.  Third part: the spec's concrete example,
movie `10 ↦ Horror` overwritten by TV `10 ↦ Drama`. -/
theorem claim6_genre_map_tv_overwrites_movie :
    (∀ (movieGenres tvGenres : List (Int × String)) (i : Int) (n : String),
      (tvGenres.map Prod.fst).Nodup → (i, n) ∈ tvGenres →
      get_genre_map movieGenres tvGenres i = some n) ∧
    (∀ (movieGenres tvGenres : List (Int × String)) (i : Int) (n : String),
      i ∉ tvGenres.map Prod.fst → (movieGenres.map Prod.fst).Nodup →
      (i, n) ∈ movieGenres →
      get_genre_map movieGenres tvGenres i = some n) ∧
    get_genre_map [(10, "Horror")] [(10, "Drama")] 10 = some "Drama" := by
  refine ⟨?_, ?_, by decide⟩
  · intro mg tg i n hnd hmem
    exact foldl_dictInsert_of_mem _ _ _ _ hnd hmem
  · intro mg tg i n hnot hnd hmem
    unfold get_genre_map
    rw [foldl_dictInsert_of_not_mem _ _ _ hnot]
    unfold dictOfPairs
    exact foldl_dictInsert_of_mem _ _ _ _ hnd hmem

/-- Witness for C6: both hypothesised parts applied at concrete genre
lists — the shared id 10 reports the TV name, the movie-only id 12 keeps
the movie name. -/
theorem claim6_genre_map_tv_overwrites_movie_witness :
    get_genre_map [(10, "Horror"), (12, "Action")] [(10, "Drama")] 10 = some "Drama" ∧
    get_genre_map [(10, "Horror"), (12, "Action")] [(10, "Drama")] 12 = some "Action" :=
  ⟨claim6_genre_map_tv_overwrites_movie.1 [(10, "Horror"), (12, "Action")] [(10, "Drama")]
      10 "Drama" (by decide) (by decide),
    claim6_genre_map_tv_overwrites_movie.2.1 [(10, "Horror"), (12, "Action")] [(10, "Drama")]
      12 "Action" (by decide) (by decide) (by decide)⟩

theorem Weekly.expand_cons_weekly (r : Weekly.NormalizedRow)
    (rest : List Weekly.NormalizedRow) :
    Weekly.expand_by_genre (r :: rest) =
      Weekly.expand_by_genre [r] ++ Weekly.expand_by_genre rest := by
  simp [Weekly.expand_by_genre]

theorem Weekly.expand_single_length_weekly (r : Weekly.NormalizedRow) :
    (Weekly.expand_by_genre [r]).length =
      if (Weekly.genreTokens r.genres).length = 0 then 1
      else (Weekly.genreTokens r.genres).length := by
  simp only [Weekly.expand_by_genre, List.flatMap_cons, List.flatMap_nil, List.append_nil]
  rcases h : Weekly.genreTokens r.genres with _ | ⟨t, ts⟩ <;> simp [h]

theorem Weekly.expand_single_genres_weekly (r : Weekly.NormalizedRow) :
    (Weekly.expand_by_genre [r]).map Weekly.ExpandedRow.genre =
      if (Weekly.genreTokens r.genres).length = 0 then [""]
      else Weekly.genreTokens r.genres := by
  simp only [Weekly.expand_by_genre, List.flatMap_cons, List.flatMap_nil, List.append_nil]
  rcases h : Weekly.genreTokens r.genres with _ | ⟨t, ts⟩ <;> simp [h, List.map_map, Function.comp_def]

theorem Historical.expand_cons_hist (r : Historical.NormalizedRow)
    (rest : List Historical.NormalizedRow) :
    Historical.expand_by_genre (r :: rest) =
      Historical.expand_by_genre [r] ++ Historical.expand_by_genre rest := by
  simp [Historical.expand_by_genre]

theorem Historical.expand_single_length_hist (r : Historical.NormalizedRow) :
    (Historical.expand_by_genre [r]).length =
      if (Historical.genreTokens r.genres).length = 0 then 1
      else (Historical.genreTokens r.genres).length := by
  simp only [Historical.expand_by_genre, List.flatMap_cons, List.flatMap_nil,
    List.append_nil]
  rcases h : Historical.genreTokens r.genres with _ | ⟨t, ts⟩ <;> simp [h]

theorem Historical.expand_single_genres_hist (r : Historical.NormalizedRow) :
    (Historical.expand_by_genre [r]).map Historical.ExpandedRow.genre =
      if (Historical.genreTokens r.genres).length = 0 then [""]
      else Historical.genreTokens r.genres := by
  simp only [Historical.expand_by_genre, List.flatMap_cons, List.flatMap_nil,
    List.append_nil]
  rcases h : Historical.genreTokens r.genres with _ | ⟨t, ts⟩ <;> simp [h, List.map_map, Function.comp_def]

/-- C2: genre expansion.  In both scripts: the output decomposes row by
row; a row whose genre string splits into k surviving tokens (split on
`";"`, trimmed, empty tokens dropped — `genreTokens`) yields exactly k
expanded rows when k > 0 and exactly one row with an empty genre field
when k = 0, the genre fields of its rows being exactly the surviving
tokens; hence every input row is represented and the expanded table is at
least as long as the input table. -/
theorem claim2_expand_by_genre_token_counts :
    ((∀ df : List Weekly.NormalizedRow,
        Weekly.expand_by_genre df = df.flatMap (fun r => Weekly.expand_by_genre [r])) ∧
      (∀ r : Weekly.NormalizedRow,
        (Weekly.expand_by_genre [r]).length =
          if (Weekly.genreTokens r.genres).length = 0 then 1
          else (Weekly.genreTokens r.genres).length) ∧
      (∀ r : Weekly.NormalizedRow,
        (Weekly.expand_by_genre [r]).map Weekly.ExpandedRow.genre =
          if (Weekly.genreTokens r.genres).length = 0 then [""]
          else Weekly.genreTokens r.genres) ∧
      (∀ df : List Weekly.NormalizedRow,
        df.length ≤ (Weekly.expand_by_genre df).length)) ∧
    ((∀ df : List Historical.NormalizedRow,
        Historical.expand_by_genre df =
          df.flatMap (fun r => Historical.expand_by_genre [r])) ∧
      (∀ r : Historical.NormalizedRow,
        (Historical.expand_by_genre [r]).length =
          if (Historical.genreTokens r.genres).length = 0 then 1
          else (Historical.genreTokens r.genres).length) ∧
      (∀ r : Historical.NormalizedRow,
        (Historical.expand_by_genre [r]).map Historical.ExpandedRow.genre =
          if (Historical.genreTokens r.genres).length = 0 then [""]
          else Historical.genreTokens r.genres) ∧
      (∀ df : List Historical.NormalizedRow,
        df.length ≤ (Historical.expand_by_genre df).length)) := by
  refine ⟨⟨?_, Weekly.expand_single_length_weekly, Weekly.expand_single_genres_weekly, ?_⟩,
    ⟨?_, Historical.expand_single_length_hist, Historical.expand_single_genres_hist, ?_⟩⟩
  · intro df
    induction df with
    | nil => simp [Weekly.expand_by_genre]
    | cons r rest ih =>
      rw [Weekly.expand_cons_weekly, List.flatMap_cons, ih]
  · intro df
    induction df with
    | nil => simp [Weekly.expand_by_genre]
    | cons r rest ih =>
      rw [Weekly.expand_cons_weekly, List.length_append]
      have h1 : 1 ≤ (Weekly.expand_by_genre [r]).length := by
        rw [Weekly.expand_single_length_weekly]
        split <;> omega
      simp only [List.length_cons]
      omega
  · intro df
    induction df with
    | nil => simp [Historical.expand_by_genre]
    | cons r rest ih =>
      rw [Historical.expand_cons_hist, List.flatMap_cons, ih]
  · intro df
    induction df with
    | nil => simp [Historical.expand_by_genre]
    | cons r rest ih =>
      rw [Historical.expand_cons_hist, List.length_append]
      have h1 : 1 ≤ (Historical.expand_by_genre [r]).length := by
        rw [Historical.expand_single_length_hist]
        split <;> omega
      simp only [List.length_cons]
      omega

/-- A concrete raw record with every field missing, used by witnesses. -/
def emptyRec : ResultRecord :=
  { id := none, media_type := none, title := none, name := none,
    release_date := none, first_air_date := none, genre_ids := none,
    popularity := none, vote_average := none, vote_count := none,
    original_language := none, overview := none, poster_path := none,
    backdrop_path := none }

theorem isEmpty_map (f : α → β) (l : List α) : (l.map f).isEmpty = l.isEmpty := by
  rcases l with _ | ⟨a, as⟩ <;> simp

/-- The request trace of the page loop only depends on which pages are
empty. -/
theorem fetchReqsFrom_congr (g : Nat → List α) (g2 : Nat → List β)
    (h : ∀ p, (g p).isEmpty = (g2 p).isEmpty) (page fuel : Nat) :
    fetchReqsFrom g page fuel = fetchReqsFrom g2 page fuel := by
  induction fuel generalizing page with
  | zero => rfl
  | succ n ih =>
    simp only [fetchReqsFrom, h page]
    by_cases h2 : (g2 page).isEmpty = true
    · simp [h2]
    · simp [h2, ih (page + 1)]

/-- C3: pagination.  For each script's paginated fetch: (i) the requested
page numbers are consecutive starting at 1; (ii) at most `pages`
single-page requests are issued; (iii) the returned list is the
concatenation of the non-empty fetched pages in fetch order (for
`discover_range`, of the media-type-stamped pages; an empty final page
contributes nothing); (iv) every requested page except possibly the last
is non-empty (the loop breaks at the first empty page); (v) if fewer than
`pages` requests were made, the last requested page was empty. -/
theorem claim3_pagination_bounds
    (f : Nat → List ResultRecord) (pages : Nat)
    (media_type start_date end_date : String) :
    ((Weekly.get_trending_requests f pages =
        List.range' 1 (Weekly.get_trending_requests f pages).length) ∧
      (Weekly.get_trending_requests f pages).length ≤ pages ∧
      Weekly.get_trending f pages =
        (((Weekly.get_trending_requests f pages).map f).filter
          (fun l => !l.isEmpty)).flatten ∧
      (((Weekly.get_trending_requests f pages).map f).dropLast).all
        (fun l => !l.isEmpty) = true ∧
      ((Weekly.get_trending_requests f pages).length < pages →
        f ((Weekly.get_trending_requests f pages).length) = [])) ∧
    ((Historical.discover_range_requests f media_type pages =
        List.range' 1 (Historical.discover_range_requests f media_type pages).length) ∧
      (Historical.discover_range_requests f media_type pages).length ≤ pages ∧
      Historical.discover_range f media_type start_date end_date pages =
        (((Historical.discover_range_requests f media_type pages).map
            (fun p => (f p).map
              (fun r => { r with media_type := some media_type }))).filter
          (fun l => !l.isEmpty)).flatten ∧
      (((Historical.discover_range_requests f media_type pages).map f).dropLast).all
        (fun l => !l.isEmpty) = true ∧
      ((media_type = "movie" ∨ media_type = "tv") →
        (Historical.discover_range_requests f media_type pages).length < pages →
        f ((Historical.discover_range_requests f media_type pages).length) = [])) := by
  have hstamp : ∀ p, ((f p).map
      (fun r => { r with media_type := some media_type } : ResultRecord →
        ResultRecord)).isEmpty = (f p).isEmpty := fun p => isEmpty_map _ _
  constructor
  · unfold Weekly.get_trending Weekly.get_trending_requests
    refine ⟨fetchReqsFrom_eq_range' f 1 pages, fetchReqsFrom_length_le f 1 pages, ?_,
      fetchReqsFrom_dropLast_nonempty f 1 pages, ?_⟩
    · rw [flatten_filter_not_isEmpty]
      exact fetchPagesFrom_eq_flatten f 1 pages
    · intro hlt
      obtain ⟨hpos, hemp⟩ := fetchReqsFrom_early_stop f 1 pages hlt
      have harg : 1 + (fetchReqsFrom f 1 pages).length - 1 =
          (fetchReqsFrom f 1 pages).length := by omega
      rwa [harg] at hemp
  · by_cases hmv : media_type = "movie"
    · subst hmv
      simp only [Historical.discover_range, Historical.discover_range_requests,
        eq_self_iff_true, if_true]
      refine ⟨fetchReqsFrom_eq_range' f 1 pages, fetchReqsFrom_length_le f 1 pages, ?_,
        fetchReqsFrom_dropLast_nonempty f 1 pages, ?_⟩
      · rw [flatten_filter_not_isEmpty, Historical.discoverLoop_eq_fetchPagesFrom,
          fetchPagesFrom_eq_flatten,
          fetchReqsFrom_congr _ f (fun p => isEmpty_map _ _) 1 pages]
      · intro _ hlt
        obtain ⟨hpos, hemp⟩ := fetchReqsFrom_early_stop f 1 pages hlt
        have harg : 1 + (fetchReqsFrom f 1 pages).length - 1 =
            (fetchReqsFrom f 1 pages).length := by omega
        rwa [harg] at hemp
    · by_cases htv : media_type = "tv"
      · subst htv
        have hne : ¬(("tv" : String) = "movie") := by decide
        simp only [Historical.discover_range, Historical.discover_range_requests,
          hne, if_false, eq_self_iff_true, if_true]
        refine ⟨fetchReqsFrom_eq_range' f 1 pages, fetchReqsFrom_length_le f 1 pages, ?_,
          fetchReqsFrom_dropLast_nonempty f 1 pages, ?_⟩
        · rw [flatten_filter_not_isEmpty, Historical.discoverLoop_eq_fetchPagesFrom,
            fetchPagesFrom_eq_flatten,
            fetchReqsFrom_congr _ f (fun p => isEmpty_map _ _) 1 pages]
        · intro _ hlt
          obtain ⟨hpos, hemp⟩ := fetchReqsFrom_early_stop f 1 pages hlt
          have harg : 1 + (fetchReqsFrom f 1 pages).length - 1 =
              (fetchReqsFrom f 1 pages).length := by omega
          rwa [harg] at hemp
      · simp only [Historical.discover_range, Historical.discover_range_requests,
          hmv, htv, if_false]
        refine ⟨by simp, Nat.zero_le _, by simp, by simp, ?_⟩
        intro hmt
        rcases hmt with h | h <;> exact h.elim

/-- Witness for C3: a concrete oracle whose page 1 holds one record and
whose page 2 is empty, with a budget of 5 pages: exactly pages 1 and 2 are
requested, and the early stop is explained by page 2 being empty. -/
theorem claim3_pagination_bounds_witness :
    Weekly.get_trending_requests
        (fun p => if p = 1 then [emptyRec] else []) 5 = [1, 2] ∧
    (fun p => if p = 1 then [emptyRec] else [] : Nat → List ResultRecord) 2 = [] ∧
    Historical.discover_range_requests
        (fun p => if p = 1 then [emptyRec] else []) "movie" 5 = [1, 2] := by
  have h := claim3_pagination_bounds (fun p => if p = 1 then [emptyRec] else [])
    5 "movie" "2025-01-01" "2025-06-30"
  have hw : Weekly.get_trending_requests
      (fun p => if p = 1 then [emptyRec] else []) 5 = [1, 2] := by decide
  have hlen := h.1.2.2.2.2
  rw [hw] at hlen
  have hh : Historical.discover_range_requests
      (fun p => if p = 1 then [emptyRec] else []) "movie" 5 = [1, 2] := by decide
  exact ⟨hw, hlen (by decide), hh⟩

/-- C4: normalization sorts the built rows descending by popularity with a
stable sort.  For each script: (i) for every popularity value `p`, the
subsequence of output rows with popularity `p` equals, in order, the
subsequence of built input rows with popularity `p` — tied rows keep their
input order, so permuting only equal-popularity input rows permutes the
output identically; (ii) the output is pairwise sorted by the descending
popularity comparator; (iii) the output is a permutation of the built
rows.  Together (i)–(iii) uniquely characterise the stable descending
sort. -/
theorem claim4_popularity_sort_is_stable
    (results : List ResultRecord) (genre_map : Int → Option String) (p : ℚ) :
    ((Weekly.normalize_trending results genre_map).filter
          (fun row => decide (row.popularity = some p)) =
        (results.map (Weekly.buildRow genre_map)).filter
          (fun row => decide (row.popularity = some p)) ∧
      (Weekly.normalize_trending results genre_map).Pairwise
        (fun a b => popLe a.popularity b.popularity = true) ∧
      (Weekly.normalize_trending results genre_map).Perm
        (results.map (Weekly.buildRow genre_map))) ∧
    ((Historical.normalize_results results genre_map).filter
          (fun row => decide (row.popularity = some p)) =
        (results.map (Historical.buildRow genre_map)).filter
          (fun row => decide (row.popularity = some p)) ∧
      (Historical.normalize_results results genre_map).Pairwise
        (fun a b => popLe a.popularity b.popularity = true) ∧
      (Historical.normalize_results results genre_map).Perm
        (results.map (Historical.buildRow genre_map))) := by
  constructor
  · unfold Weekly.normalize_trending
    by_cases h : (results.map (Weekly.buildRow genre_map)).isEmpty = true
    · rw [List.isEmpty_iff.mp h]
      simp
    · simp only [h, Bool.false_eq_true, if_false]
      refine ⟨filter_popSort_stable _ _ p, ?_, List.mergeSort_perm _ _⟩
      exact popSort_sorted Weekly.NormalizedRow.popularity _
  · unfold Historical.normalize_results
    by_cases h : (results.map (Historical.buildRow genre_map)).isEmpty = true
    · rw [List.isEmpty_iff.mp h]
      simp
    · simp only [h, Bool.false_eq_true, if_false]
      refine ⟨filter_popSort_stable _ _ p, ?_, List.mergeSort_perm _ _⟩
      exact popSort_sorted Historical.NormalizedRow.popularity _

/-- C7: the history merge of the trending script is a pure append — with
an existing table of N rows and M new rows the rewritten table has exactly
N + M rows, its first N rows are the existing rows unchanged and in order,
its last M rows are the new rows in order; with no history file the result
is exactly the new rows. -/
theorem claim7_history_is_pure_append (old df : List Weekly.NormalizedRow) :
    (Weekly.history_merge (some old) df).length = old.length + df.length ∧
    (Weekly.history_merge (some old) df).take old.length = old ∧
    (Weekly.history_merge (some old) df).drop old.length = df ∧
    Weekly.history_merge none df = df := by
  refine ⟨?_, ?_, ?_, rfl⟩
  · simp [Weekly.history_merge]
  · simp [Weekly.history_merge, List.take_left]
  · simp [Weekly.history_merge, List.drop_left]

theorem attemptsFrom_length_le (responses : Nat → HttpResponse) (a fuel : Nat) :
    (attemptsFrom responses a fuel).length ≤ fuel := by
  induction fuel generalizing a with
  | zero => simp [attemptsFrom]
  | succ n ih =>
    simp only [attemptsFrom]
    by_cases h : (responses a).status = 200
    · simp [h]
    · simp only [h, if_false, List.length_cons]
      exact Nat.succ_le_succ (ih (a + 1))

/-- C5: the single-page fetch makes at most 3 GET attempts.  If the first
200 response arrives at attempt `i` (attempts before it non-200), the
parsed body of that response is returned, attempts `0..i` were issued and
the sleeps were `1, ..., i` seconds (one after each failed attempt).  If
all three attempts are non-200, every sleep `1, 2, 3` happens and the call
fails with an error carrying the last status and the body truncated to 300
characters — the only outcomes are full success or a raised error. -/
theorem claim5_fetch_retry_policy (responses : Nat → HttpResponse) :
    (fetch_attempts responses).length ≤ 3 ∧
    (∀ i : Nat, i < 3 → (responses i).status = 200 →
      (∀ j : Nat, j < i → (responses j).status ≠ 200) →
      fetch_json responses = .ok (responses i) ∧
      fetch_attempts responses = List.range (i + 1) ∧
      fetch_sleeps responses = (List.range i).map (fun j => 1 + j)) ∧
    ((∀ j : Nat, j < 3 → (responses j).status ≠ 200) →
      fetch_json responses =
        .error ((responses 2).status, String.mk ((responses 2).body.data.take 300)) ∧
      fetch_attempts responses = [0, 1, 2] ∧
      fetch_sleeps responses = [1, 2, 3]) := by
  refine ⟨attemptsFrom_length_le responses 0 3, ?_, ?_⟩
  · intro i hi h200 hprev
    interval_cases i
    · refine ⟨?_, ?_, ?_⟩ <;>
        simp [fetch_json, fetchFrom, fetch_attempts, attemptsFrom, fetch_sleeps,
          sleepsFrom, h200, List.range_succ]
    · have h0 : (responses 0).status ≠ 200 := hprev 0 (by omega)
      refine ⟨?_, ?_, ?_⟩ <;>
        simp [fetch_json, fetchFrom, fetch_attempts, attemptsFrom, fetch_sleeps,
          sleepsFrom, h200, h0, List.range_succ]
    · have h0 : (responses 0).status ≠ 200 := hprev 0 (by omega)
      have h1 : (responses 1).status ≠ 200 := hprev 1 (by omega)
      refine ⟨?_, ?_, ?_⟩ <;>
        simp [fetch_json, fetchFrom, fetch_attempts, attemptsFrom, fetch_sleeps,
          sleepsFrom, h200, h0, h1, List.range_succ]
  · intro hall
    have h0 := hall 0 (by omega)
    have h1 := hall 1 (by omega)
    have h2 := hall 2 (by omega)
    refine ⟨?_, ?_, ?_⟩ <;>
      simp [fetch_json, fetchFrom, fetch_attempts, attemptsFrom, fetch_sleeps,
        sleepsFrom, h0, h1, h2]

/-- A response oracle whose third attempt succeeds. -/
def w5ok : Nat → HttpResponse := fun a =>
  if a = 2 then { status := 200, body := "ok" } else { status := 503, body := "busy" }

/-- A response oracle that always fails. -/
def w5fail : Nat → HttpResponse := fun _ => { status := 500, body := "server error" }

/-- Witness for C5: with two 503s then a 200, the call returns the 200
body after sleeping 1 then 2 seconds; with three 500s it raises carrying
status 500 and the (short, hence untruncated) body after sleeping 1, 2, 3
seconds. -/
theorem claim5_fetch_retry_policy_witness :
    fetch_json w5ok = .ok { status := 200, body := "ok" } ∧
    fetch_attempts w5ok = [0, 1, 2] ∧
    fetch_sleeps w5ok = [1, 2] ∧
    fetch_json w5fail = .error (500, "server error") ∧
    fetch_sleeps w5fail = [1, 2, 3] := by
  have hok := (claim5_fetch_retry_policy w5ok).2.1 2 (by omega) (by decide) (by decide)
  have hfail := (claim5_fetch_retry_policy w5fail).2.2 (by decide)
  refine ⟨?_, ?_, ?_, ?_, hfail.2.2⟩
  · rw [hok.1]
    rfl
  · rw [hok.2.1]
    rfl
  · rw [hok.2.2]
    rfl
  · rw [hfail.1]
    exact congrArg Except.error (by decide)

theorem Historical.mem_discoverLoop_media_type (f : Nat → List ResultRecord)
    (media_type : String) (page fuel : Nat) (r : ResultRecord)
    (hr : r ∈ Historical.discoverLoop f media_type page fuel) :
    r.media_type = some media_type := by
  induction fuel generalizing page with
  | zero => simp [Historical.discoverLoop] at hr
  | succ n ih =>
    simp only [Historical.discoverLoop] at hr
    by_cases h : (f page).isEmpty = true
    · simp [h] at hr
    · simp only [h, Bool.false_eq_true, if_false, List.mem_append] at hr
      rcases hr with hmem | hmem
      · obtain ⟨r0, hr0, hstamp⟩ := List.mem_map.mp hmem
        rw [← hstamp]
      · exact ih (page + 1) hmem

/-- C9: for any media type other than `"movie"` and `"tv"`, and any dates
and page budget, `discover_range` returns the empty list and issues no
page request at all. -/
theorem claim9_discover_range_rejects_unknown_media (f : Nat → List ResultRecord)
    (media_type start_date end_date : String) (pages : Nat)
    (h1 : media_type ≠ "movie") (h2 : media_type ≠ "tv") :
    Historical.discover_range f media_type start_date end_date pages = [] ∧
    Historical.discover_range_requests f media_type pages = [] := by
  unfold Historical.discover_range Historical.discover_range_requests
  rw [if_neg h1, if_neg h2, if_neg h1, if_neg h2]
  exact ⟨rfl, rfl⟩

/-- Witness for C9: `"person"` with an oracle that would return a record
on every page — still no output and no request. -/
theorem claim9_discover_range_rejects_unknown_media_witness :
    Historical.discover_range (fun _ => [emptyRec]) "person"
        "2025-01-01" "2025-06-30" 5 = [] ∧
    Historical.discover_range_requests (fun _ => [emptyRec]) "person" 5 = [] :=
  claim9_discover_range_rejects_unknown_media (fun _ => [emptyRec]) "person"
    "2025-01-01" "2025-06-30" 5 (by decide) (by decide)

/-- C10: every record returned by `discover_range` carries `media_type`
equal to the media type argument — the loop stamps it on each raw record
of every fetched page before appending (for the non-movie/tv branches the
statement is vacuous since nothing is returned). -/
theorem claim10_discover_range_stamps_media_type (f : Nat → List ResultRecord)
    (media_type start_date end_date : String) (pages : Nat) (r : ResultRecord)
    (hr : r ∈ Historical.discover_range f media_type start_date end_date pages) :
    r.media_type = some media_type := by
  unfold Historical.discover_range at hr
  by_cases hmv : media_type = "movie"
  · rw [if_pos hmv] at hr
    exact Historical.mem_discoverLoop_media_type f media_type 1 pages r hr
  · rw [if_neg hmv] at hr
    by_cases htv : media_type = "tv"
    · rw [if_pos htv] at hr
      exact Historical.mem_discoverLoop_media_type f media_type 1 pages r hr
    · rw [if_neg htv] at hr
      simp at hr

/-- Witness for C10: the record fetched by the movie query comes back
stamped with `media_type = "movie"`. -/
theorem claim10_discover_range_stamps_media_type_witness :
    ({ emptyRec with media_type := some "movie" } : ResultRecord).media_type =
      some "movie" :=
  claim10_discover_range_stamps_media_type
    (fun p => if p = 1 then [emptyRec] else []) "movie" "2025-01-01" "2025-06-30" 5
    { emptyRec with media_type := some "movie" } (by decide)

/-- The credits oracle of the C8 failing input: a single sampled title
whose cast holds 17 distinct names. -/
def w8credits : Weekly.NormalizedRow → List (Option String) := fun _ =>
  (List.range 17).map (fun i => some ("A" ++ toString i))

/-- The single sampled row of the C8 failing input. -/
def w8row : Weekly.NormalizedRow :=
  { id := some 1, media_type := some "movie", title := some "X", date := none,
    popularity := some 1, vote_average := none, vote_count := none,
    original_language := none, genres := "", overview := none, poster_path := none,
    backdrop_path := none, tmdb_url := "" }

/-- C8 failing input, evaluated on the code: sampling one title whose cast
lists 17 distinct actors accumulates 17 entries in first-seen order, all
tied at count 1.  The script then sorts this table with
`out.sort_values("count", ascending=False)` — the *default*
`kind="quicksort"` (numpy introsort), which unlike the `kind="mergesort"`
used for the popularity sorts is not stable: on a tie class larger than
numpy's 16-element insertion-sort cutoff the tied rows are emitted in
implementation-defined order, not first-seen order, contradicting the
claim's stability assertion.  The intended behaviour (the claim, matching
the deliberate `kind="mergesort"` elsewhere) would require a stable kind
here. -/
theorem claim8_cast_sample_tie_break_failing_input :
    (Weekly.top_cast_counts w8credits [w8row] 8).length = 17 ∧
    (Weekly.top_cast_counts w8credits [w8row] 8).map Prod.fst =
      (List.range 17).map (fun i => "A" ++ toString i) ∧
    (Weekly.top_cast_counts w8credits [w8row] 8).all
      (fun entry => entry.2 = 1) = true := by
  decide

end TMDB
